import Mathlib

/-!
Shallow embedding of the cellaserv3 broker and client cores.

The broker side is translated from `broker/broker.go` and `broker/reply.go`:
connection teardown (`Broker.handle`, second half), subscriber-table cleanup
(`removeConnFromMap`), the message dispatch switch (`handleMessage`) and the
reply handler (`handleReply`).  The client side is translated from the client
package: `sendRequestWaitForReply`, `handleReply`, `handleRequest`,
`handleRequestReply`, `handlePublish` and `Subscribe`.

Go values are modelled as plain data: connections (`net.Conn` pointers) and
service objects (`*service` pointers) become numeric identities; Go maps
become association lists; byte slices become `List Nat`.  Network writes
(`common.SendRawMessage`, `common.SendMessage`) are modelled by returning the
list of `(destination, bytes)` pairs that the handler emits, in program
order; published internal events and closed connections are collected in an
`Action` list, also in program order.
-/

namespace Cellaserv

/-- A connection identity (stands for a `net.Conn` pointer). -/
abbrev Conn := Nat

/-- Raw wire bytes (stands for a Go `[]byte`). -/
abbrev Bytes := List Nat

/-- A service object identity (stands for a `*service` pointer). -/
abbrev SId := Nat

/-- Association-list lookup: models a Go map read `m[k]` (with `ok`). -/
def alookup {α β : Type} [BEq α] (k : α) : List (α × β) → Option β
  | [] => none
  | p :: t => if p.1 == k then some p.2 else alookup k t

/-- Association-list key deletion: models Go `delete(m, k)`. -/
def aerase {α β : Type} [BEq α] (k : α) (l : List (α × β)) : List (α × β) :=
  l.filter (fun p => !(p.1 == k))

/-- Association-list in-place value update at a key that is present:
models a Go map write `m[k] = v` through an existing entry. -/
def aupdate {α β : Type} [BEq α] (k : α) (v : β) (l : List (α × β)) : List (α × β) :=
  l.map (fun p => if p.1 == k then (k, v) else p)

theorem alookup_aerase_self {α β : Type} [BEq α] (k : α) (l : List (α × β)) :
    alookup k (aerase k l) = none := by
  induction l with
  | nil => rfl
  | cons p t ih =>
    by_cases h : p.1 == k
    · simpa [aerase, List.filter_cons, h] using ih
    · simpa [aerase, List.filter_cons, h, alookup] using ih

theorem alookup_aerase_of_none {α β : Type} [BEq α] (k k₂ : α) (l : List (α × β))
    (h : alookup k l = none) : alookup k (aerase k₂ l) = none := by
  induction l with
  | nil => rfl
  | cons p t ih =>
    by_cases hk : p.1 == k
    · simp [alookup, hk] at h
    · simp only [alookup, hk, if_neg] at h
      by_cases h2 : p.1 == k₂
      · simpa [aerase, List.filter_cons, h2] using ih h
      · simpa [aerase, List.filter_cons, h2, alookup, hk] using ih h

/-- A request-tracker record (`requestTracking` in the broker package).
The fields read by `handleReply` under src/ are `sender`, `spies`, `timer`,
`start` and `latencyObserver`; the timer is modelled by a running flag and
the latency observer is an external effect that carries no broker state.
The field `origId` is modelled from the spec: §4.4 states that the original
client request id is stored in the tracker (the struct's definition is not
under src/); no code under src/ ever reads it. -/
structure RequestTracking where
  sender : Conn
  spies : List Conn
  timerRunning : Bool
  start : Nat
  origId : Nat
  deriving DecidableEq

/-- A broker-side service object (`service` struct): the fields read by
`broker.go` are `Name`, `Identification` and `Spies`. -/
structure Srvc where
  name : String
  identification : String
  spies : List Conn
  deriving DecidableEq

/-- The broker state (`Broker` struct), restricted to its tables.
Go's `Services map[string]map[string]*service` is flattened to an
association list keyed by the `(name, identification)` pair; service
objects live in the `services` heap, and the tables hold their ids,
modelling Go's shared `*service` pointers. -/
structure BrokerState where
  connList : List Conn
  connNameMap : List (Conn × String)
  connSpies : List (Conn × List SId)
  services : List (SId × Srvc)
  servicesIndex : List ((String × String) × SId)
  servicesConn : List (Conn × List SId)
  reqIds : List (Nat × RequestTracking)
  subscriberMap : List (String × List Conn)
  subscriberMatchMap : List (String × List Conn)
  deriving DecidableEq

/-- The empty broker state built by `broker.New`. -/
def newBroker : BrokerState :=
  { connList := [], connNameMap := [], connSpies := [], services := [],
    servicesIndex := [], servicesConn := [], reqIds := [],
    subscriberMap := [], subscriberMatchMap := [] }

/-- A `cellaserv.Reply` payload: id, data, optional `(error type, what)`. -/
structure ReplyMsg where
  id : Nat
  data : Bytes
  err : Option (Nat × String)
  deriving DecidableEq

/-- An injective stand-in for the protobuf serialization of a Reply (the
protobuf library is outside src/); only injectivity in the id field is
relied upon. -/
def encodeReply (r : ReplyMsg) : Bytes :=
  r.id :: r.data

/-- `handleReply` from `broker/reply.go`, faithful to its control flow:
look the id up in `reqIds`; if absent, log and drop (no sends, no state
change); otherwise delete the tracker, observe latency, send the raw bytes
to every spy, stop the timer, and send the raw bytes to the sender.  The
returned send list is in program order: all spies first, then the sender. -/
def Broker.handleReply (st : BrokerState) (_conn : Conn) (msgRaw : Bytes)
    (rep : ReplyMsg) : BrokerState × List (Conn × Bytes) :=
  match alookup rep.id st.reqIds with
  | none => (st, [])
  | some reqTrack =>
    let st2 := { st with reqIds := aerase rep.id st.reqIds }
    let spySends := reqTrack.spies.map (fun spy => (spy, msgRaw))
    (st2, spySends ++ [(reqTrack.sender, msgRaw)])

/-- External effects of teardown and of the modelled publish/subscribe
handlers: internal-event publications and broker-initiated connection
closes, in program order. -/
inductive Action where
  | publishLostService (s : Srvc)
  | closeSpy (c : Conn)
  | publishLostSubscriber (event : String) (c : Conn)
  | publishNewSubscriber (event : String) (c : Conn)
  | publishCloseConnection
  deriving DecidableEq

/-- The inner loop of `removeConnFromMap` (broker.go:103-118), with Go's
slice semantics made explicit.  `subs` ranges over the slice header taken
at loop entry, so the loop iterates over the first `n` cells of the backing
array even after the map value is re-sliced; `subs` itself is never
reassigned, so `len(subs)` stays `n`: every match writes
`subs[i] = subs[n-1]` into the array and stores the array prefix of length
`n-1` back into the map.  `fuel` counts the iterations left (`n - i`).
Returns `none` when the loop deleted the key and broke out (only possible
when `n = 1`), otherwise the final backing array, paired with the number of
`log.lost_subscriber` publications. -/
def rcLoop (conn : Conn) (n : Nat) : Nat → Nat → List Conn → Nat →
    Option (List Conn) × Nat
  | 0, _, arr, pubs => (some arr, pubs)
  | fuel + 1, i, arr, pubs =>
    if arr.getD i 0 == conn then
      let arr2 := arr.set i (arr.getD (n - 1) 0)
      if n - 1 == 0 then (none, pubs + 1)
      else rcLoop conn n fuel (i + 1) arr2 (pubs + 1)
    else rcLoop conn n fuel (i + 1) arr pubs

/-- One key's worth of `removeConnFromMap`: the final map value for the key
(`none` when the key was deleted) and the number of `log.lost_subscriber`
publications.  If no entry matched, the map still holds the original slice
(full length); otherwise it holds the first `n - 1` cells of the final
backing array. -/
def removeConnFromKey (conn : Conn) (arr : List Conn) : Option (List Conn) × Nat :=
  match rcLoop conn arr.length arr.length 0 arr 0 with
  | (none, pubs) => (none, pubs)
  | (some arrF, pubs) =>
    if pubs == 0 then (some arr, 0)
    else (some (arrF.take (arr.length - 1)), pubs)

/-- `removeConnFromMap` from broker.go:101-120, applied to one subscriber
table: rebuilds the table (dropping keys the loop deleted) and emits one
`log.lost_subscriber` per match iteration.  Go map iteration order is
unspecified; the model fixes the association-list order, which no per-key
result depends on. -/
def removeConnFromMap (conn : Conn) (m : List (String × List Conn)) :
    List (String × List Conn) × List Action :=
  (m.filterMap (fun p =>
      match removeConnFromKey conn p.2 with
      | (none, _) => none
      | (some v, _) => some (p.1, v)),
   m.flatMap (fun p =>
      List.replicate (removeConnFromKey conn p.2).2
        (Action.publishLostSubscriber p.1 conn)))

/-- Removal of the first occurrence of `c` by the swap-with-last idiom
(broker.go:126-133): `l[i] = l[len-1]; l = l[:len-1]; break`. -/
def swapRemoveFirst (c : Conn) (l : List Conn) : List Conn :=
  match l.findIdx? (fun x => x == c) with
  | none => l
  | some i => (l.set i (l.getD (l.length - 1) 0)).take (l.length - 1)

/-- The service-cleanup loop of teardown (broker.go:84-97): for each service
object id owned by the closing connection, publish `log.lost_service`,
delete the service's `(name, identification)` key from the service table,
and close every connection spying on it.  The heap is read-only here (the
Go loop reads fields through the `*service` pointers). -/
def removeOwnedServices (heap : List (SId × Srvc)) :
    List SId → List ((String × String) × SId) →
    List ((String × String) × SId) × List Action
  | [], idx => (idx, [])
  | sid :: rest, idx =>
    match alookup sid heap with
    | none => removeOwnedServices heap rest idx
    | some s =>
      let r := removeOwnedServices heap rest (aerase (s.name, s.identification) idx)
      (r.1, (Action.publishLostService s :: s.spies.map Action.closeSpy) ++ r.2)

/-- The teardown half of `Broker.handle` (broker.go:76-137), run after the
dispatch loop breaks: remove the connection from the connection list and
name map, remove and announce its services (closing their spies), clean
both subscriber tables, remove the connection from the spy list of every
service it spied, drop its spy record, and finally publish
`log.close_connection`. -/
def Broker.handleTeardown (st : BrokerState) (conn : Conn) : BrokerState × List Action :=
  let connList2 := st.connList.erase conn
  let connNameMap2 := aerase conn st.connNameMap
  let owned := (alookup conn st.servicesConn).getD []
  let r3 := removeOwnedServices st.services owned st.servicesIndex
  let servicesConn2 := aerase conn st.servicesConn
  let r5 := removeConnFromMap conn st.subscriberMap
  let r6 := removeConnFromMap conn st.subscriberMatchMap
  let spied := (alookup conn st.connSpies).getD []
  let services2 := spied.foldl (fun heap sid =>
      match alookup sid heap with
      | none => heap
      | some s => aupdate sid { s with spies := swapRemoveFirst conn s.spies } heap)
    st.services
  let connSpies2 := aerase conn st.connSpies
  ({ st with connList := connList2, connNameMap := connNameMap2,
             servicesIndex := r3.1, servicesConn := servicesConn2,
             subscriberMap := r5.1, subscriberMatchMap := r6.1,
             services := services2, connSpies := connSpies2 },
   r3.2 ++ r5.2 ++ r6.2 ++ [Action.publishCloseConnection])

/-- A `cellaserv.Register` payload. -/
structure RegisterMsg where
  name : String
  identification : String
  deriving DecidableEq

/-- A `cellaserv.Request` payload. -/
structure RequestMsg where
  id : Nat
  serviceName : String
  serviceIdentification : String
  method : String
  data : Bytes
  deriving DecidableEq

/-- A `cellaserv.Subscribe` payload. -/
structure SubscribeMsg where
  event : String
  deriving DecidableEq

/-- A `cellaserv.Publish` payload. -/
structure PublishMsg where
  event : String
  data : Bytes
  deriving DecidableEq

/-- A framed `cellaserv.Message`: numeric tag (`Register=1`, `Request=2`,
`Reply=3`, `Subscribe=4`, `Publish=5`) plus the tag-specific content bytes. -/
structure Message where
  type : Nat
  content : Bytes
  deriving DecidableEq

/-- The five payload deserializers (`proto.Unmarshal` at each payload type);
the protobuf library is outside src/, so decoding is a parameter:
`none` models an unmarshal failure. -/
structure Codec where
  decRegister : Bytes → Option RegisterMsg
  decRequest : Bytes → Option RequestMsg
  decReply : Bytes → Option ReplyMsg
  decSubscribe : Bytes → Option SubscribeMsg
  decPublish : Bytes → Option PublishMsg

/-- The four broker handlers other than `handleReply`; their bodies
(`handleRegister`, `handleRequest`, `handleSubscribe`, `handlePublish`)
are not under src/, so `handleMessage` is parameterized over them. -/
structure Handlers where
  hRegister : BrokerState → Conn → RegisterMsg → BrokerState × List (Conn × Bytes)
  hRequest : BrokerState → Conn → Bytes → RequestMsg → BrokerState × List (Conn × Bytes)
  hSubscribe : BrokerState → Conn → SubscribeMsg → BrokerState × List (Conn × Bytes)
  hPublish : BrokerState → Conn → Bytes → PublishMsg → BrokerState × List (Conn × Bytes)

/-- `handleMessage` from broker.go:148-203: switch on the message tag; for a
known tag, unmarshal the payload and on failure log and return an error
without running the handler (state untouched, nothing sent); on success run
the handler and return no error; for an unknown tag return an error.  The
result pairs the (state, sends) outcome with the returned `error`. -/
def Broker.handleMessage (h : Handlers) (cod : Codec) (st : BrokerState) (conn : Conn)
    (msgBytes : Bytes) (msg : Message) :
    (BrokerState × List (Conn × Bytes)) × Option String :=
  if msg.type = 1 then
    match cod.decRegister msg.content with
    | none => ((st, []), some "Could not unmarshal register")
    | some m => (h.hRegister st conn m, none)
  else if msg.type = 2 then
    match cod.decRequest msg.content with
    | none => ((st, []), some "Could not unmarshal request")
    | some m => (h.hRequest st conn msgBytes m, none)
  else if msg.type = 3 then
    match cod.decReply msg.content with
    | none => ((st, []), some "Could not unmarshal reply")
    | some m => (Broker.handleReply st conn msgBytes m, none)
  else if msg.type = 4 then
    match cod.decSubscribe msg.content with
    | none => ((st, []), some "Could not unmarshal subscribe")
    | some m => (h.hSubscribe st conn m, none)
  else if msg.type = 5 then
    match cod.decPublish msg.content with
    | none => ((st, []), some "Could not unmarshal publish")
    | some m => (h.hPublish st conn msgBytes m, none)
  else ((st, []), some "Unknown message type")

/-- One result of `common.RecvMessage` in the dispatch loop: the
clean-close flag, whether the receive reported an error (logged only),
and the raw bytes and decoded frame. -/
structure RecvEvent where
  closed : Bool
  recvFailed : Bool
  msgBytes : Bytes
  msg : Message

/-- The receive loop of `Broker.handle` (broker.go:61-74) over a finite
trace of receive results: a receive error is logged but neither breaks the
loop nor skips `handleMessage`; a clean close breaks to teardown; a
`handleMessage` error is logged and the loop continues.  Returns the final
state and whether the loop broke to teardown. -/
def Broker.dispatchLoop (h : Handlers) (cod : Codec) (conn : Conn) :
    BrokerState → List RecvEvent → BrokerState × Bool
  | st, [] => (st, false)
  | st, e :: es =>
    if e.closed then (st, true)
    else
      Broker.dispatchLoop h cod conn
        (Broker.handleMessage h cod st conn e.msgBytes e.msg).1.1 es

/-- The modulus of client request ids, which are `uint64`. -/
def U64 : Nat := 2 ^ 64

/-- The client state touched by the request/reply code: the atomic id
counter and the in-flight map from request id to the reply channel
(channels are modelled by numeric tokens). -/
structure ClientState where
  currentRequestId : Nat
  requestsInFlight : List (Nat × Nat)
  deriving DecidableEq

/-- `sendRequestWaitForReply` (client, part_001:35-57):
`atomic.AddUint64` bumps the counter (uint64 wrap-around) and stamps the
request; a still-present entry for the new id panics (modelled as
`Except.error`); otherwise a fresh reply channel is registered under the id
and the request is sent.  Returns the new state and the id used. -/
def Client.sendRequestWaitForReply (c : ClientState) (freshChan : Nat) :
    Except String (ClientState × Nat) :=
  let newId := (c.currentRequestId + 1) % U64
  let c2 := { c with currentRequestId := newId }
  if (alookup newId c2.requestsInFlight).isSome then
    Except.error ("Duplicate Request Id: " ++ toString newId)
  else
    Except.ok ({ c2 with requestsInFlight := (newId, freshChan) :: c2.requestsInFlight },
      newId)

/-- `handleReply` (client, part_001:106-113): look the reply id up in
`requestsInFlight`; if absent return an error, otherwise deliver the reply
on the stored channel.  No entry is ever deleted from the map. -/
def Client.handleReply (c : ClientState) (rep : ReplyMsg) :
    Except String (ClientState × Nat × ReplyMsg) :=
  match alookup rep.id c.requestsInFlight with
  | none => Except.error "Could not find request matching reply"
  | some replyChan => Except.ok (c, replyChan, rep)

/-- The panic message of the client `handleRequest` for an unknown service
(part_001:76). -/
def clientPanicNoSuchService (req : RequestMsg) : String :=
  "[Request] id:" ++ toString req.id ++ " No such service: " ++ req.serviceName

/-- A registered client-side service instance, abstracted to its request
handler (the client `service` struct is outside src/): it returns the reply
payload bytes and an optional error. -/
abbrev SrvcStub := RequestMsg → Bytes × Option String

/-- `handleRequest` (client, part_001:60-81): look the service name up in
`c.services`; if absent or with zero identifications, panic (modelled as
`Except.error` with the source's message).  Otherwise look the
identification up ignoring the `ok` flag; a missing identification leaves a
nil `*service` whose method call dereferences fields and panics (Go
semantics; the method body is outside src/).  On success the service's
handler runs. -/
def Client.handleRequest (services : List (String × List (String × SrvcStub)))
    (req : RequestMsg) : Except String (Bytes × Option String) :=
  match alookup req.serviceName services with
  | none => Except.error (clientPanicNoSuchService req)
  | some idents =>
    if idents.length == 0 then Except.error (clientPanicNoSuchService req)
    else
      match alookup req.serviceIdentification idents with
      | none => Except.error "runtime error: invalid memory address or nil pointer dereference"
      | some srv => Except.ok (srv req)

/-- `handleRequestReply` (client, part_001:83-104): run `handleRequest`; a
panic propagates (no reply message is built); otherwise build a Reply with
the request's id and the payload, attaching a `Custom` (=3) error when the
handler returned one, and send it. -/
def Client.handleRequestReply (services : List (String × List (String × SrvcStub)))
    (req : RequestMsg) : Except String ReplyMsg :=
  match Client.handleRequest services req with
  | Except.error p => Except.error p
  | Except.ok (bytes, none) => Except.ok { id := req.id, data := bytes, err := none }
  | Except.ok (bytes, some e) => Except.ok { id := req.id, data := bytes, err := some (3, e) }

/-- A client-side subscriber (part_001:19-22): the compiled event pattern is
modelled by its string form plus its match function; the handler produces an
abstract effect `γ`. -/
structure Subscriber (γ : Type) where
  patternStr : String
  eventPattern : String → Bool
  handle : String → Bytes → γ

/-- `handlePublish` (client, part_001:115-124): for each registered
subscriber in order, if its pattern matches the event name, invoke its
handler with the event name and data.  Returns the handler invocations in
order. -/
def Client.handlePublish {γ : Type} (subs : List (Subscriber γ)) (eventName : String)
    (d : Bytes) : List γ :=
  subs.flatMap (fun s => if s.eventPattern eventName then [s.handle eventName d] else [])

/-- `Subscribe` (client, part_001:218-244): append the subscriber to the
list and send a Subscribe message carrying the pattern's string form. -/
def Client.subscribe {γ : Type} (subs : List (Subscriber γ)) (s : Subscriber γ) :
    List (Subscriber γ) × String :=
  (subs ++ [s], s.patternStr)

/-- A regular-expression metacharacter, for classifying subscribe
specifiers as literal names or patterns. -/
def isRegexMeta (c : Char) : Bool :=
  c == '.' || c == '*' || c == '+' || c == '?' || c == '(' || c == ')' ||
  c == '[' || c == ']' || c == '^' || c == '$' || c == '|' || c == '\\' ||
  c == Char.ofNat 123 || c == Char.ofNat 125

/-- Whether a subscribe specifier contains a regex metacharacter. -/
def hasRegexMeta (s : String) : Bool :=
  s.data.any isRegexMeta

/-- Append a connection to the entry list at a key, creating the entry if
absent: models `m[k] = append(m[k], c)` on a Go map of slices. -/
def ainsertAppend {α : Type} [BEq α] (k : α) (c : Conn) :
    List (α × List Conn) → List (α × List Conn)
  | [] => [(k, [c])]
  | p :: t => if p.1 == k then (p.1, p.2 ++ [c]) :: t else p :: ainsertAppend k c t

/-- Modelled from the spec: the broker's Subscribe handler is not under src/
(only `broker.go`, `reply.go` and client files are).  Per §4.6: a specifier
with no regex metacharacter is inserted into the exact-match table,
otherwise into the pattern table; duplicate entries are kept;
`log.new_subscriber` is emitted. -/
def Broker.handleSubscribe (st : BrokerState) (conn : Conn) (event : String) :
    BrokerState × List Action :=
  if hasRegexMeta event then
    ({ st with subscriberMatchMap := ainsertAppend event conn st.subscriberMatchMap },
     [Action.publishNewSubscriber event conn])
  else
    ({ st with subscriberMap := ainsertAppend event conn st.subscriberMap },
     [Action.publishNewSubscriber event conn])

/-- Modelled from the spec: the broker's Publish handler is not under src/.
Per §4.7: the raw publish bytes are sent once per subscribing connection
entry, to every entry under the exact-match key and to every entry of each
pattern whose compiled regex matches the event name.  `reMatch` stands for
the compiled-regex match relation (the regexp engine is a library). -/
def Broker.handlePublish (reMatch : String → String → Bool) (st : BrokerState)
    (_conn : Conn) (msgRaw : Bytes) (event : String) : List (Conn × Bytes) :=
  let exact := (alookup event st.subscriberMap).getD []
  let patterned := st.subscriberMatchMap.flatMap
      (fun p => if reMatch p.1 event then p.2 else [])
  (exact ++ patterned).map (fun c => (c, msgRaw))

/-! ## Theorems -/

/-- A broker state holding one tracker, keyed by broker id 42, whose stored
original client id is 7 and whose sender is connection 0. -/
def c1State : BrokerState :=
  { newBroker with
    connList := [0, 1],
    reqIds := [(42, { sender := 0, spies := [], timerRunning := true,
                      start := 0, origId := 7 })] }

/-- C1 counterexample: the broker does not restore the original request id.
With a tracker at id 42 storing original client id 7, a Reply arriving with
id 42 is forwarded to the sender as the verbatim incoming bytes, still
carrying id 42 — not the bytes of the Reply with id 7 that the claim
demands. -/
theorem C1_counterexample :
    (alookup 42 c1State.reqIds).map RequestTracking.origId = some 7 ∧
    (Broker.handleReply c1State 1
        (encodeReply { id := 42, data := [9], err := none })
        { id := 42, data := [9], err := none }).2 =
      [(0, encodeReply { id := 42, data := [9], err := none })] ∧
    encodeReply { id := 42, data := [9], err := none } ≠
      encodeReply { id := 7, data := [9], err := none } := by
  decide

/-- C1 (amended): for every Reply whose id matches a current tracker, the
broker forwards the incoming reply bytes verbatim to each spy and to the
stored sender; no id rewriting happens on the outgoing bytes, so the sender
sees whichever id the replying service put on the Reply. -/
theorem C1_reply_forwarded_verbatim :
    ∀ (st : BrokerState) (conn : Conn) (msgRaw : Bytes) (rep : ReplyMsg)
      (tr : RequestTracking), alookup rep.id st.reqIds = some tr →
      ((Broker.handleReply st conn msgRaw rep).2).map Prod.snd =
        List.replicate (tr.spies.length + 1) msgRaw := by
  intro st conn msgRaw rep tr h
  simp only [Broker.handleReply, h, List.map_append, List.map_map]
  have h1 : tr.spies.map (Prod.snd ∘ fun spy => ((spy, msgRaw) : Conn × Bytes)) =
      List.replicate tr.spies.length msgRaw := by
    induction tr.spies with
    | nil => rfl
    | cons a t ih => simpa [List.replicate_succ] using ih
  rw [h1, List.replicate_succ' tr.spies.length msgRaw]
  rfl

/-- C1 witness. -/
theorem C1_reply_forwarded_verbatim_witness :
    alookup 42 c1State.reqIds =
      some { sender := 0, spies := [], timerRunning := true, start := 0, origId := 7 } ∧
    ((Broker.handleReply c1State 1 [42, 9] { id := 42, data := [9], err := none }).2).map
        Prod.snd = List.replicate 1 [42, 9] :=
  ⟨by decide,
   C1_reply_forwarded_verbatim c1State 1 [42, 9] { id := 42, data := [9], err := none }
     { sender := 0, spies := [], timerRunning := true, start := 0, origId := 7 }
     (by decide)⟩

/-- C2 counterexample: teardown does not scan the request-tracker table.
A state with one tracker (id 5) whose sender is connection 0: after
teardown of connection 0, the tracker record is still present, its timer
still running, while connection 0 is no longer in the connection list — so
a remaining tracker's sender is a closed connection. -/
theorem C2_counterexample :
    (((Broker.handleTeardown
          { newBroker with
            connList := [0, 1],
            reqIds := [(5, { sender := 0, spies := [], timerRunning := true,
                             start := 0, origId := 3 })] } 0).1).reqIds =
        [(5, { sender := 0, spies := [], timerRunning := true,
               start := 0, origId := 3 })]) ∧
    ((0 : Conn) ∉ ((Broker.handleTeardown
          { newBroker with
            connList := [0, 1],
            reqIds := [(5, { sender := 0, spies := [], timerRunning := true,
                             start := 0, origId := 3 })] } 0).1).connList) := by
  decide

/-- C2 (amended): teardown of a connection leaves the request-tracker table
exactly as it was: no record is removed and no timer is cancelled, whatever
the closing connection is; a tracker whose sender closed therefore survives
teardown, and a later matching reply is forwarded toward the stored closed
sender rather than being dropped by table lookup. -/
theorem C2_teardown_ignores_trackers :
    ∀ (st : BrokerState) (conn : Conn),
      ((Broker.handleTeardown st conn).1).reqIds = st.reqIds := by
  intro st conn
  rfl

/-- C4: when a Reply matches a tracker, the send list is exactly one send
per recorded spy entry followed by exactly one send to the stored sender,
all carrying the identical raw reply bytes; every spy send precedes the
sender send, and no other sender receives the Reply. -/
theorem C4_reply_fanout :
    ∀ (st : BrokerState) (conn : Conn) (msgRaw : Bytes) (rep : ReplyMsg)
      (tr : RequestTracking), alookup rep.id st.reqIds = some tr →
      (Broker.handleReply st conn msgRaw rep).2 =
        tr.spies.map (fun spy => (spy, msgRaw)) ++ [(tr.sender, msgRaw)] ∧
      (∀ p ∈ (Broker.handleReply st conn msgRaw rep).2, p.2 = msgRaw) := by
  intro st conn msgRaw rep tr h
  have hs : (Broker.handleReply st conn msgRaw rep).2 =
      tr.spies.map (fun spy => (spy, msgRaw)) ++ [(tr.sender, msgRaw)] := by
    simp [Broker.handleReply, h]
  refine ⟨hs, ?_⟩
  intro p hp
  rw [hs] at hp
  rcases List.mem_append.1 hp with h1 | h2
  · rcases List.mem_map.1 h1 with ⟨spy, _, rfl⟩
    rfl
  · rw [List.mem_singleton.1 h2]

/-- C4 witness. -/
theorem C4_reply_fanout_witness :
    alookup 11 ({ newBroker with
        reqIds := [(11, { sender := 4, spies := [8, 9], timerRunning := true,
                          start := 0, origId := 1 })] } : BrokerState).reqIds =
      some { sender := 4, spies := [8, 9], timerRunning := true, start := 0, origId := 1 } ∧
    (Broker.handleReply
        { newBroker with
          reqIds := [(11, { sender := 4, spies := [8, 9], timerRunning := true,
                            start := 0, origId := 1 })] } 5 [3, 3]
        { id := 11, data := [3], err := none }).2 =
      [(8, [3, 3]), (9, [3, 3])] ++ [(4, [3, 3])] :=
  ⟨by decide,
   ((C4_reply_fanout
      { newBroker with
        reqIds := [(11, { sender := 4, spies := [8, 9], timerRunning := true,
                          start := 0, origId := 1 })] } 5 [3, 3]
      { id := 11, data := [3], err := none }
      { sender := 4, spies := [8, 9], timerRunning := true, start := 0, origId := 1 }
      (by decide)).1)⟩

/-- C5: a Reply whose id matches no current tracker is dropped — no bytes
are forwarded to any connection and the whole broker state (all tables) is
unchanged; in particular a second Reply for an id whose tracker was removed
by a first Reply is dropped the same way. -/
theorem C5_unknown_reply_dropped :
    (∀ (st : BrokerState) (conn : Conn) (msgRaw : Bytes) (rep : ReplyMsg),
       alookup rep.id st.reqIds = none →
       Broker.handleReply st conn msgRaw rep = (st, [])) ∧
    (∀ (st : BrokerState) (cA cB : Conn) (mrA mrB : Bytes) (rep : ReplyMsg)
       (tr : RequestTracking), alookup rep.id st.reqIds = some tr →
       Broker.handleReply ((Broker.handleReply st cA mrA rep).1) cB mrB rep =
         ((Broker.handleReply st cA mrA rep).1, [])) := by
  constructor
  · intro st conn msgRaw rep h
    simp [Broker.handleReply, h]
  · intro st cA cB mrA mrB rep tr h
    have hst : (Broker.handleReply st cA mrA rep).1 =
        { st with reqIds := aerase rep.id st.reqIds } := by
      simp [Broker.handleReply, h]
    rw [hst]
    have h2 : alookup rep.id
        ({ st with reqIds := aerase rep.id st.reqIds } : BrokerState).reqIds = none :=
      alookup_aerase_self _ _
    simp [Broker.handleReply, h2]

/-- C5 witness. -/
theorem C5_unknown_reply_dropped_witness :
    alookup 13 (newBroker.reqIds) = none ∧
    Broker.handleReply newBroker 2 [1] { id := 13, data := [], err := none } =
      (newBroker, []) :=
  ⟨by decide,
   C5_unknown_reply_dropped.1 newBroker 2 [1] { id := 13, data := [], err := none }
     (by decide)⟩

theorem removeOwnedServices_preserves_none (heap : List (SId × Srvc))
    (key : String × String) :
    ∀ (owned : List SId) (idx : List ((String × String) × SId)),
      alookup key idx = none →
      alookup key (removeOwnedServices heap owned idx).1 = none := by
  intro owned
  induction owned with
  | nil => intro idx h; simpa [removeOwnedServices] using h
  | cons sid rest ih =>
    intro idx h
    simp only [removeOwnedServices]
    cases hh : alookup sid heap with
    | none => exact ih idx h
    | some s => exact ih _ (alookup_aerase_of_none _ _ _ h)

theorem removeOwnedServices_removes (heap : List (SId × Srvc)) (sid : SId) (s : Srvc)
    (hs : alookup sid heap = some s) :
    ∀ (owned : List SId) (idx : List ((String × String) × SId)), sid ∈ owned →
      alookup (s.name, s.identification) (removeOwnedServices heap owned idx).1 = none ∧
      Action.publishLostService s ∈ (removeOwnedServices heap owned idx).2 ∧
      ∀ c ∈ s.spies, Action.closeSpy c ∈ (removeOwnedServices heap owned idx).2 := by
  intro owned
  induction owned with
  | nil => intro idx h; cases h
  | cons sid2 rest ih =>
    intro idx hmem
    rcases List.mem_cons.1 hmem with heq | hmem2
    · subst heq
      simp only [removeOwnedServices, hs]
      refine ⟨removeOwnedServices_preserves_none heap _ rest _ (alookup_aerase_self _ _),
        ?_, ?_⟩
      · exact List.mem_append_left _ (List.mem_cons_self _ _)
      · intro c hc
        exact List.mem_append_left _
          (List.mem_cons_of_mem _ (List.mem_map_of_mem Action.closeSpy hc))
    · simp only [removeOwnedServices]
      cases hh : alookup sid2 heap with
      | none => exact ih idx hmem2
      | some s2 =>
        obtain ⟨h1, h2, h3⟩ := ih (aerase (s2.name, s2.identification) idx) hmem2
        exact ⟨h1, List.mem_append_right _ h2,
          fun c hc => List.mem_append_right _ (h3 c hc)⟩

theorem getLast?_append_singleton {α : Type} (l : List α) (a : α) :
    (l ++ [a]).getLast? = some a :=
  (List.getLast?_append_cons l a []).trans rfl

/-- C7: teardown of a connection removes each service it owned from the
service table under that service's `(name, identification)` key, publishes
`log.lost_service` for it, closes every connection spying on it, and emits
`log.close_connection` as the very last action. -/
theorem C7_teardown_services :
    ∀ (st : BrokerState) (conn : Conn) (sid : SId) (s : Srvc),
      sid ∈ (alookup conn st.servicesConn).getD [] →
      alookup sid st.services = some s →
      alookup (s.name, s.identification)
          ((Broker.handleTeardown st conn).1).servicesIndex = none ∧
      Action.publishLostService s ∈ (Broker.handleTeardown st conn).2 ∧
      (∀ c ∈ s.spies, Action.closeSpy c ∈ (Broker.handleTeardown st conn).2) ∧
      ((Broker.handleTeardown st conn).2).getLast? = some Action.publishCloseConnection := by
  intro st conn sid s hmem hs
  obtain ⟨h1, h2, h3⟩ :=
    removeOwnedServices_removes st.services sid s hs
      ((alookup conn st.servicesConn).getD []) st.servicesIndex hmem
  refine ⟨h1, ?_, ?_, ?_⟩
  · show Action.publishLostService s ∈
      (removeOwnedServices st.services ((alookup conn st.servicesConn).getD [])
        st.servicesIndex).2 ++ _ ++ _ ++ _
    exact List.mem_append_left _ (List.mem_append_left _ (List.mem_append_left _ h2))
  · intro c hc
    show Action.closeSpy c ∈
      (removeOwnedServices st.services ((alookup conn st.servicesConn).getD [])
        st.servicesIndex).2 ++ _ ++ _ ++ _
    exact List.mem_append_left _ (List.mem_append_left _ (List.mem_append_left _ (h3 c hc)))
  · show (_ ++ _ ++ _ ++ [Action.publishCloseConnection]).getLast? =
      some Action.publishCloseConnection
    exact getLast?_append_singleton _ _

/-- C7 witness. -/
theorem C7_teardown_services_witness :
    (3 : SId) ∈ (alookup 0 ({ newBroker with
        connList := [0, 1, 2],
        services := [(3, { name := "math", identification := "", spies := [2] })],
        servicesIndex := [(("math", ""), 3)],
        servicesConn := [(0, [3])],
        connSpies := [(2, [3])] } : BrokerState).servicesConn).getD [] ∧
    alookup 3 ({ newBroker with
        connList := [0, 1, 2],
        services := [(3, { name := "math", identification := "", spies := [2] })],
        servicesIndex := [(("math", ""), 3)],
        servicesConn := [(0, [3])],
        connSpies := [(2, [3])] } : BrokerState).services =
      some { name := "math", identification := "", spies := [2] } ∧
    alookup ("math", "") ((Broker.handleTeardown { newBroker with
        connList := [0, 1, 2],
        services := [(3, { name := "math", identification := "", spies := [2] })],
        servicesIndex := [(("math", ""), 3)],
        servicesConn := [(0, [3])],
        connSpies := [(2, [3])] } 0).1).servicesIndex = none :=
  ⟨by decide, by decide,
   (C7_teardown_services { newBroker with
      connList := [0, 1, 2],
      services := [(3, { name := "math", identification := "", spies := [2] })],
      servicesIndex := [(("math", ""), 3)],
      servicesConn := [(0, [3])],
      connSpies := [(2, [3])] } 0 3 { name := "math", identification := "", spies := [2] }
      (by decide) (by decide)).1⟩

/-- C3: the claim fails on the code.  `removeConnFromMap` swap-removes
while ranging over the original slice header: with the exact-match table
holding event `"e"` subscribed twice by connection 0, teardown of
connection 0 leaves the stale entry `("e", [0])` referencing the closed
connection, and publishes `log.lost_subscriber` twice although only one
entry was removed. -/
theorem C3_duplicate_subscriber_survives :
    ((Broker.handleTeardown { newBroker with
        connList := [0, 1],
        subscriberMap := [("e", [0, 0])] } 0).1).subscriberMap = [("e", [0])] ∧
    ((Broker.handleTeardown { newBroker with
        connList := [0, 1],
        subscriberMap := [("e", [0, 0])] } 0).2).count
        (Action.publishLostSubscriber "e" 0) = 2 ∧
    (0 : Conn) ∉ ((Broker.handleTeardown { newBroker with
        connList := [0, 1],
        subscriberMap := [("e", [0, 0])] } 0).1).connList := by
  decide

/-- Handlers that leave the state alone and send nothing. -/
def noHandlers : Handlers :=
  { hRegister := fun st _ _ => (st, []),
    hRequest := fun st _ _ _ => (st, []),
    hSubscribe := fun st _ _ => (st, []),
    hPublish := fun st _ _ _ => (st, []) }

/-- A codec on which every unmarshal fails. -/
def noneCodec : Codec :=
  { decRegister := fun _ => none, decRequest := fun _ => none,
    decReply := fun _ => none, decSubscribe := fun _ => none,
    decPublish := fun _ => none }

/-- C6: `handleMessage` returns an error exactly when the payload fails to
unmarshal for its tag or the tag is outside the five variants, and in the
error case no handler runs — the state is unchanged and nothing is sent,
whatever the handlers are.  The dispatch loop breaks to teardown exactly on
a clean close and keeps looping after a `handleMessage` error. -/
theorem C6_dispatch_errors :
    (∀ (h : Handlers) (cod : Codec) (st : BrokerState) (conn : Conn)
       (mb : Bytes) (msg : Message),
       ((Broker.handleMessage h cod st conn mb msg).2).isSome = true ↔
         ((msg.type = 1 ∧ cod.decRegister msg.content = none) ∨
          (msg.type = 2 ∧ cod.decRequest msg.content = none) ∨
          (msg.type = 3 ∧ cod.decReply msg.content = none) ∨
          (msg.type = 4 ∧ cod.decSubscribe msg.content = none) ∨
          (msg.type = 5 ∧ cod.decPublish msg.content = none) ∨
          ¬(msg.type = 1 ∨ msg.type = 2 ∨ msg.type = 3 ∨ msg.type = 4 ∨
            msg.type = 5))) ∧
    (∀ (h : Handlers) (cod : Codec) (st : BrokerState) (conn : Conn)
       (mb : Bytes) (msg : Message) (e : String),
       (Broker.handleMessage h cod st conn mb msg).2 = some e →
       (Broker.handleMessage h cod st conn mb msg).1 = (st, [])) ∧
    (∀ (h : Handlers) (cod : Codec) (conn : Conn) (st : BrokerState)
       (e : RecvEvent) (es : List RecvEvent), e.closed = false →
       Broker.dispatchLoop h cod conn st (e :: es) =
         Broker.dispatchLoop h cod conn
           (Broker.handleMessage h cod st conn e.msgBytes e.msg).1.1 es) ∧
    (∀ (h : Handlers) (cod : Codec) (conn : Conn) (st : BrokerState)
       (e : RecvEvent) (es : List RecvEvent), e.closed = true →
       Broker.dispatchLoop h cod conn st (e :: es) = (st, true)) := by
  refine ⟨?_, ?_, ?_, ?_⟩
  · intro h cod st conn mb msg
    by_cases h1 : msg.type = 1
    · cases hr : cod.decRegister msg.content <;>
        simp [Broker.handleMessage, h1, hr]
    · by_cases h2 : msg.type = 2
      · cases hr : cod.decRequest msg.content <;>
          simp [Broker.handleMessage, h1, h2, hr]
      · by_cases h3 : msg.type = 3
        · cases hr : cod.decReply msg.content <;>
            simp [Broker.handleMessage, h1, h2, h3, hr]
        · by_cases h4 : msg.type = 4
          · cases hr : cod.decSubscribe msg.content <;>
              simp [Broker.handleMessage, h1, h2, h3, h4, hr]
          · by_cases h5 : msg.type = 5
            · cases hr : cod.decPublish msg.content <;>
                simp [Broker.handleMessage, h1, h2, h3, h4, h5, hr]
            · simp [Broker.handleMessage, h1, h2, h3, h4, h5]
  · intro h cod st conn mb msg e
    by_cases h1 : msg.type = 1
    · cases hr : cod.decRegister msg.content <;>
        simp [Broker.handleMessage, h1, hr]
    · by_cases h2 : msg.type = 2
      · cases hr : cod.decRequest msg.content <;>
          simp [Broker.handleMessage, h1, h2, hr]
      · by_cases h3 : msg.type = 3
        · cases hr : cod.decReply msg.content <;>
            simp [Broker.handleMessage, h1, h2, h3, hr]
        · by_cases h4 : msg.type = 4
          · cases hr : cod.decSubscribe msg.content <;>
              simp [Broker.handleMessage, h1, h2, h3, h4, hr]
          · by_cases h5 : msg.type = 5
            · cases hr : cod.decPublish msg.content <;>
                simp [Broker.handleMessage, h1, h2, h3, h4, h5, hr]
            · simp [Broker.handleMessage, h1, h2, h3, h4, h5]
  · intro h cod conn st e es hc
    simp [Broker.dispatchLoop, hc]
  · intro h cod conn st e es hc
    simp [Broker.dispatchLoop, hc]

/-- C6 witness. -/
theorem C6_dispatch_errors_witness :
    ((Broker.handleMessage noHandlers noneCodec newBroker 0 []
        { type := 9, content := [] }).2 = some "Unknown message type") ∧
    ((Broker.handleMessage noHandlers noneCodec newBroker 0 []
        { type := 9, content := [] }).1 = (newBroker, [])) ∧
    (Broker.dispatchLoop noHandlers noneCodec 0 newBroker
        [{ closed := false, recvFailed := true, msgBytes := [],
           msg := { type := 9, content := [] } }] =
      Broker.dispatchLoop noHandlers noneCodec 0
        (Broker.handleMessage noHandlers noneCodec newBroker 0 []
          { type := 9, content := [] }).1.1 []) ∧
    (Broker.dispatchLoop noHandlers noneCodec 0 newBroker
        [{ closed := true, recvFailed := false, msgBytes := [],
           msg := { type := 9, content := [] } }] = (newBroker, true)) :=
  ⟨rfl,
   C6_dispatch_errors.2.1 noHandlers noneCodec newBroker 0 []
     { type := 9, content := [] } "Unknown message type" rfl,
   C6_dispatch_errors.2.2.1 noHandlers noneCodec 0 newBroker
     { closed := false, recvFailed := true, msgBytes := [],
       msg := { type := 9, content := [] } } [] rfl,
   C6_dispatch_errors.2.2.2 noHandlers noneCodec 0 newBroker
     { closed := true, recvFailed := false, msgBytes := [],
       msg := { type := 9, content := [] } } [] rfl⟩

/-- C8: publish-subscribe round trip.  On the broker (modelled from the
spec, §4.6–§4.7): after A subscribes to the literal event `e`, a publish of
`e` with data `d` delivers exactly one message `(A, d)`; after A subscribes
to a pattern `p`, a publish of any event the compiled pattern matches
delivers exactly one message to A.  On the client (from the source): every
registered subscriber whose compiled pattern matches the received event
name has its handler invoked exactly once with the event name and data, in
registration order. -/
theorem C8_pubsub_roundtrip :
    (∀ (A B : Conn) (e : String) (d : Bytes) (reMatch : String → String → Bool),
       hasRegexMeta e = false →
       Broker.handlePublish reMatch ((Broker.handleSubscribe newBroker A e).1) B d e =
         [(A, d)]) ∧
    (∀ (A B : Conn) (p ev : String) (d : Bytes) (reMatch : String → String → Bool),
       hasRegexMeta p = true → reMatch p ev = true →
       Broker.handlePublish reMatch ((Broker.handleSubscribe newBroker A p).1) B d ev =
         [(A, d)]) ∧
    (∀ (γ : Type) (subs : List (Subscriber γ)) (ev : String) (d : Bytes),
       Client.handlePublish subs ev d =
         (subs.filter (fun s => s.eventPattern ev)).map (fun s => s.handle ev d)) := by
  refine ⟨?_, ?_, ?_⟩
  · intro A B e d reMatch hlit
    simp [Broker.handleSubscribe, hlit, Broker.handlePublish, newBroker,
      ainsertAppend, alookup]
  · intro A B p ev d reMatch hpat hm
    simp [Broker.handleSubscribe, hpat, Broker.handlePublish, newBroker,
      ainsertAppend, alookup, hm]
  · intro γ subs ev d
    induction subs with
    | nil => rfl
    | cons s t ih =>
      by_cases h : s.eventPattern ev
      · simp [Client.handlePublish, List.filter_cons, h] at ih ⊢
        exact ih
      · simp [Client.handlePublish, List.filter_cons, h] at ih ⊢
        exact ih

/-- C8 witness. -/
theorem C8_pubsub_roundtrip_witness :
    hasRegexMeta "ping" = false ∧
    Broker.handlePublish (fun _ s => s == "foo.bar")
        ((Broker.handleSubscribe newBroker 0 "ping").1) 1 [5] "ping" = [(0, [5])] ∧
    hasRegexMeta "foo..*" = true ∧
    (fun (_ : String) (s : String) => s == "foo.bar") "foo..*" "foo.bar" = true ∧
    Broker.handlePublish (fun _ s => s == "foo.bar")
        ((Broker.handleSubscribe newBroker 0 "foo..*").1) 1 [5] "foo.bar" =
      [(0, [5])] :=
  ⟨by decide,
   C8_pubsub_roundtrip.1 0 1 "ping" [5] (fun _ s => s == "foo.bar") (by decide),
   by decide, by decide,
   C8_pubsub_roundtrip.2.1 0 1 "foo..*" "foo.bar" [5]
     (fun _ s => s == "foo.bar") (by decide) (by decide)⟩

/-- C9: in the client, a request id in `requestsInFlight` is never removed:
a successful `handleReply` leaves the map (and the delivered id's entry)
exactly as it was, and `sendRequestWaitForReply` panics whenever the next
wrapped `uint64` id is still present in the map. -/
theorem C9_inflight_never_removed :
    (∀ (c : ClientState) (rep : ReplyMsg) (res : ClientState × Nat × ReplyMsg),
       Client.handleReply c rep = Except.ok res →
       res.1 = c ∧ res.1.requestsInFlight = c.requestsInFlight ∧
       alookup rep.id res.1.requestsInFlight = alookup rep.id c.requestsInFlight) ∧
    (∀ (c : ClientState) (freshChan : Nat),
       (alookup ((c.currentRequestId + 1) % U64) c.requestsInFlight).isSome = true →
       Client.sendRequestWaitForReply c freshChan =
         Except.error
           ("Duplicate Request Id: " ++ toString ((c.currentRequestId + 1) % U64))) := by
  constructor
  · intro c rep res hres
    cases hh : alookup rep.id c.requestsInFlight with
    | none => simp [Client.handleReply, hh] at hres
    | some replyChan =>
      simp only [Client.handleReply, hh, Except.ok.injEq] at hres
      subst hres
      exact ⟨rfl, rfl, hh⟩
  · intro c freshChan hdup
    simp [Client.sendRequestWaitForReply, hdup]

/-- C9 witness. -/
theorem C9_inflight_never_removed_witness :
    Client.handleReply { currentRequestId := 0, requestsInFlight := [(5, 7)] }
        { id := 5, data := [], err := none } =
      Except.ok ({ currentRequestId := 0, requestsInFlight := [(5, 7)] }, 7,
        { id := 5, data := [], err := none }) ∧
    ({ currentRequestId := 0, requestsInFlight := [(5, 7)] } : ClientState).requestsInFlight =
      [(5, 7)] ∧
    (alookup ((0 + 1) % U64) ([(1, 9)] : List (Nat × Nat))).isSome = true ∧
    Client.sendRequestWaitForReply { currentRequestId := 0, requestsInFlight := [(1, 9)] } 3 =
      Except.error ("Duplicate Request Id: " ++ toString ((0 + 1) % U64)) :=
  ⟨rfl,
   (C9_inflight_never_removed.1 { currentRequestId := 0, requestsInFlight := [(5, 7)] }
      { id := 5, data := [], err := none }
      ({ currentRequestId := 0, requestsInFlight := [(5, 7)] }, 7,
        { id := 5, data := [], err := none }) rfl).2.1,
   by decide,
   C9_inflight_never_removed.2 { currentRequestId := 0, requestsInFlight := [(1, 9)] } 3
     (by decide)⟩

/-- C10: a Request naming a service the client has not registered (or one
with zero registered identifications) makes `handleRequest` panic inside
`handleRequestReply`, so no Reply — in particular no `Custom`-error Reply —
is produced for that request. -/
theorem C10_unknown_service_panics :
    ∀ (services : List (String × List (String × SrvcStub))) (req : RequestMsg),
      (alookup req.serviceName services = none ∨
       alookup req.serviceName services = some []) →
      Client.handleRequestReply services req =
        Except.error (clientPanicNoSuchService req) := by
  intro services req h
  rcases h with h | h
  · simp [Client.handleRequestReply, Client.handleRequest, h]
  · simp [Client.handleRequestReply, Client.handleRequest, h]

/-- C10 witness. -/
theorem C10_unknown_service_panics_witness :
    alookup "nope" ([] : List (String × List (String × SrvcStub))) = none ∧
    Client.handleRequestReply []
        { id := 7, serviceName := "nope", serviceIdentification := "",
          method := "add", data := [] } =
      Except.error (clientPanicNoSuchService
        { id := 7, serviceName := "nope", serviceIdentification := "",
          method := "add", data := [] }) :=
  ⟨rfl,
   C10_unknown_service_panics []
     { id := 7, serviceName := "nope", serviceIdentification := "",
       method := "add", data := [] } (Or.inl rfl)⟩

end Cellaserv
